import Mathlib

/-!
Verification of the storage accessor module `src/lib/storage/factory.ts`
(`createStorage<T>`), a typed façade over the chrome.storage.local
callback-based key-value store.

The embedding models, per operation, the settlement behavior of the promise
the operation returns, together with the resulting store contents, the
console.error log, and any exception that escapes into the host's callback
context.  Two JavaScript facts drive the translation and are used anywhere a
`throw` appears in the source:

1. A `throw` during the synchronous run of a `new Promise(executor)` body is
   caught by the Promise constructor and turns into a rejection of that
   promise; `new Promise(...)` itself never throws.  Consequently the
   `try { return new Promise(...) } catch { log; throw }` wrappers in
   `get`/`set`/`remove` have unreachable `catch` blocks: no exception can
   reach them, so their `console.error` calls never run.

2. A `throw` inside a callback that the platform invokes later (after the
   executor has returned) is NOT seen by the Promise constructor or by the
   surrounding `try`: it propagates into the host's event dispatch as an
   uncaught exception, and since `resolve` is not called on that path, the
   promise never settles.  This is the path taken by
   `if (chrome.runtime.lastError) { console.error(...); throw ... }` inside
   the `set` and `remove` callbacks.
-/

namespace PromptCraft

/-- Error values surfaced by the platform store; the spec's single error
kind `StoreUnavailable`, carrying its message. -/
def Err := String

instance : DecidableEq Err := inferInstanceAs (DecidableEq String)

/-- Modelled from the spec: `StorageConfig<T>` is `{ key: string,
defaultValue: T }` (declared in `src/lib/storage/types.ts`, which is not
among the sources; `factory.ts` imports it). -/
structure StorageConfig (T : Type) where
  key : String
  defaultValue : T

/-- Contents of the external store: a map from keys to stored values.
`none` models an unset key (a read yields `undefined`). -/
def Store (T : Type) := String → Option T

/-- One call made against a promise's settlement interface during an
operation: `resolve(a)` or a rejection with error `e`. -/
inductive SettleCall (α : Type) where
  | resolveCall (a : α)
  | rejectCall (e : Err)
deriving DecidableEq

/-- The observable final state of a promise. -/
inductive Settle (α : Type) where
  | resolved (a : α)
  | rejected (e : Err)
  | pending
deriving DecidableEq

/-- A promise settles on the first `resolve`/`reject` call it receives;
later calls are ignored; with no call it stays pending forever. -/
def promiseOutcome {α : Type} : List (SettleCall α) → Settle α
  | [] => .pending
  | .resolveCall a :: _ => .resolved a
  | .rejectCall e :: _ => .rejected e

/-- How one underlying `chrome.storage.local.get` call behaves: the
abstract contract (spec section 6) gives `storeGet` a result callback and
no last-error side channel, so its only failure mode is the call itself
throwing. -/
inductive GetBehavior where
  | ok
  | syncThrow (e : Err)

/-- How one underlying `chrome.storage.local.set` / `.remove` call
behaves: the callback fires cleanly, or the callback fires with the
last-error side channel set (spec section 6), or the call itself throws. -/
inductive WriteBehavior where
  | ok
  | lastError (e : Err)
  | syncThrow (e : Err)

/-- Everything observable about one accessor operation: the settlement
calls its promise received, the store contents afterwards, the
`console.error` log entries emitted, and an exception escaping into the
host's callback context (if any). -/
structure OpResult (T α : Type) where
  settleCalls : List (SettleCall α)
  store : Store T
  log : List String
  uncaught : Option Err

/-- The final state of the operation's promise. -/
def OpResult.outcome {T α : Type} (r : OpResult T α) : Settle α :=
  promiseOutcome r.settleCalls

/-- Embeds `get` (factory.ts lines 11-23).  The executor calls
`chrome.storage.local.get([config.key], cb)`; the callback resolves
`result[config.key]` and never consults `chrome.runtime.lastError`.
If the underlying call throws, the executor throw becomes a rejection via
the Promise constructor (fact 1 above), so the `catch` at lines 19-22
never runs and nothing is logged. -/
def Storage.get {T : Type} (config : StorageConfig T) (st : Store T)
    (b : GetBehavior) : OpResult T (Option T) :=
  match b with
  | .ok =>
      { settleCalls := [.resolveCall (st config.key)]
        store := st, log := [], uncaught := none }
  | .syncThrow e =>
      { settleCalls := [.rejectCall e]
        store := st, log := [], uncaught := none }

/-- Embeds `set` (factory.ts lines 26-42).  On a clean callback the store
now maps `config.key` to `value` and `resolve()` runs.  When the
last-error channel is set, the write did not commit, the callback logs
`Storage set error for <key>` and throws: by fact 2 above that throw is
lost as an uncaught exception and the promise receives no settlement
call.  A synchronous throw from the underlying call rejects the promise
via the executor (fact 1), bypassing the `catch` at lines 38-41. -/
def Storage.set {T : Type} (config : StorageConfig T) (value : T)
    (st : Store T) (b : WriteBehavior) : OpResult T Unit :=
  match b with
  | .ok =>
      { settleCalls := [.resolveCall ()]
        store := fun k => if k = config.key then some value else st k
        log := [], uncaught := none }
  | .lastError e =>
      { settleCalls := []
        store := st
        log := ["Storage set error for " ++ config.key]
        uncaught := some e }
  | .syncThrow e =>
      { settleCalls := [.rejectCall e]
        store := st, log := [], uncaught := none }

/-- Embeds `remove` (factory.ts lines 89-105).  Identical structure to
`set`, with `chrome.storage.local.remove(config.key, cb)` deleting the
key on the clean path. -/
def Storage.remove {T : Type} (config : StorageConfig T) (st : Store T)
    (b : WriteBehavior) : OpResult T Unit :=
  match b with
  | .ok =>
      { settleCalls := [.resolveCall ()]
        store := fun k => if k = config.key then none else st k
        log := [], uncaught := none }
  | .lastError e =>
      { settleCalls := []
        store := st
        log := ["Storage remove error for " ++ config.key]
        uncaught := some e }
  | .syncThrow e =>
      { settleCalls := [.rejectCall e]
        store := st, log := [], uncaught := none }

/-- Embeds `getWithDefault` (factory.ts lines 73-81):
`await this.get()`; a resolved `undefined` is replaced by
`config.defaultValue`; a rejection is caught, logged and replaced by
`config.defaultValue`; awaiting a never-settling promise never resumes. -/
def Storage.getWithDefault {T : Type} (config : StorageConfig T)
    (st : Store T) (b : GetBehavior) : OpResult T T :=
  let r := Storage.get config st b
  match r.outcome with
  | .resolved none =>
      { settleCalls := [.resolveCall config.defaultValue]
        store := r.store, log := r.log, uncaught := r.uncaught }
  | .resolved (some v) =>
      { settleCalls := [.resolveCall v]
        store := r.store, log := r.log, uncaught := r.uncaught }
  | .rejected _ =>
      { settleCalls := [.resolveCall config.defaultValue]
        store := r.store
        log := r.log ++ ["Storage getWithDefault error for " ++ config.key]
        uncaught := r.uncaught }
  | .pending =>
      { settleCalls := [], store := r.store, log := r.log
        uncaught := r.uncaught }

/-- Embeds `reset` (factory.ts lines 84-86): `return this.set(config.defaultValue)`. -/
def Storage.reset {T : Type} (config : StorageConfig T) (st : Store T)
    (b : WriteBehavior) : OpResult T Unit :=
  Storage.set config config.defaultValue st b

/-- One entry of a change event, `chrome.storage.StorageChange`: both
fields are optional in practice; in particular a removal delivers a
change whose `newValue` field is absent, modelled as `none`. -/
structure StorageChange (T : Type) where
  newValue : Option T
  oldValue : Option T

/-- One store-wide change event: the map `changes` passed to every
registered listener; a JavaScript object, so at most one change per key.
`k in changes` is `(changes k).isSome`. -/
def Changes (T : Type) := String → Option (StorageChange T)

/-- Embeds the `listener` closure built by `watch` (factory.ts lines
46-53): on one change event it invokes `callback(changes[config.key].newValue)`
when `config.key in changes`, and does nothing otherwise.  The result is
the list of arguments passed to `callback` during this one event. -/
def watchListener {T : Type} (config : StorageConfig T) (changes : Changes T) :
    List (Option T) :=
  match changes config.key with
  | some c => [c.newValue]
  | none => []

/-- Delivery of one change event by the store's event bus: each listener
currently on the listener list is invoked once; `registered` says whether
this accessor's listener is on the list.  The result is the list of
arguments `callback` receives for this event. -/
def deliverEvent {T : Type} (registered : Bool) (config : StorageConfig T)
    (changes : Changes T) : List (Option T) :=
  if registered then watchListener config changes else []

/-- Delivery of a sequence of change events, in order, while the
registration state stays fixed. -/
def deliverEvents {T : Type} (registered : Bool) (config : StorageConfig T)
    (evts : List (Changes T)) : List (Option T) :=
  evts.foldr (fun ch acc => deliverEvent registered config ch ++ acc) []

/-- How `chrome.storage.local.onChanged.addListener` behaves for one
`watch` call: succeeds, or throws. -/
inductive SetupBehavior where
  | ok
  | throws (e : Err)

/-- How `chrome.storage.local.onChanged.removeListener` behaves for one
call of the returned unregister function: succeeds (removing a listener
that is not on the list is a no-op), or throws. -/
inductive RemoveBehavior where
  | ok
  | throws (e : Err)

/-- Which unregister function a `watch` call handed back: the real
closure that removes the listener (line 58-65), or the no-op `() => {}`
returned when setup failed (line 68). -/
inductive Unregister where
  | real
  | noop
deriving DecidableEq

/-- Everything observable about one `watch(callback)` call: whether the
listener ended up on the store's listener list, which unregister function
was returned, the log entries emitted, and an error raised to the caller
(if any). -/
structure WatchResult where
  registered : Bool
  unreg : Unregister
  log : List String
  raised : Option Err

/-- Embeds `watch` (factory.ts lines 45-70): `addListener(listener)`
inside `try`; on success the real unregister closure is returned; if
setup throws, the `catch` at lines 66-69 logs and returns `() => {}` —
nothing is raised to the caller on either path. -/
def Storage.watch {T : Type} (config : StorageConfig T) (b : SetupBehavior) :
    WatchResult :=
  match b with
  | .ok =>
      { registered := true, unreg := .real, log := [], raised := none }
  | .throws _ =>
      { registered := false, unreg := .noop
        log := ["Storage watch error for " ++ config.key]
        raised := none }

/-- Everything observable about one call of an unregister function:
the registration state afterwards, the log entries emitted, and an error
raised to the caller (if any). -/
structure UnregResult where
  registered : Bool
  log : List String
  raised : Option Err

/-- Embeds running the unregister function returned by `watch`, starting
from registration state `registered`.  The real closure (lines 58-65)
calls `removeListener` inside `try`: on success the listener is off the
list (a second call removes an absent listener, which is a no-op); if
`removeListener` throws, the `catch` at lines 62-64 logs and swallows.
The no-op closure (line 68) does nothing.  No path raises. -/
def runUnregister {T : Type} (config : StorageConfig T) (u : Unregister)
    (b : RemoveBehavior) (registered : Bool) : UnregResult :=
  match u with
  | .noop => { registered := registered, log := [], raised := none }
  | .real =>
      match b with
      | .ok => { registered := false, log := [], raised := none }
      | .throws _ =>
          { registered := registered
            log := ["Storage unwatch error for " ++ config.key]
            raised := none }

/-!
## Theorems
-/

/-- C1: the claim says a last-error report after a `set` write makes the
returned promise reject with `StoreUnavailable`.  Evaluating `set` at the
failing input (`set("dark")` on key `"theme"` with the last-error channel
reporting `"disk full"`): the promise receives zero settlement calls and
stays pending forever — the `throw` happens inside the platform-invoked
callback and escapes as an uncaught exception instead of rejecting.  No
value is committed (the store is unchanged). -/
theorem c1_set_lastError_never_settles :
    (Storage.set (StorageConfig.mk "theme" "light") "dark" (fun _ => none)
      (.lastError "disk full")).outcome = .pending
    ∧ (Storage.set (StorageConfig.mk "theme" "light") "dark" (fun _ => none)
      (.lastError "disk full")).uncaught = some "disk full"
    ∧ (Storage.set (StorageConfig.mk "theme" "light") "dark" (fun _ => none)
      (.lastError "disk full")).store "theme" = none :=
  ⟨rfl, rfl, rfl⟩

/-- C2: the claim says a failing underlying `get` call is logged with the
key name and re-raised.  Evaluating `get` at the failing input (the
underlying call throws `"boom"`): the promise does reject with the error,
but the log is empty — the `catch`/`console.error` block of `get` is
unreachable, because the executor throw is converted into a rejection by
the Promise constructor and `new Promise` itself never throws. -/
theorem c2_get_error_rejected_but_unlogged :
    (Storage.get (StorageConfig.mk "theme" "light") (fun _ => none)
      (.syncThrow "boom")).outcome = .rejected "boom"
    ∧ (Storage.get (StorageConfig.mk "theme" "light") (fun _ => none)
      (.syncThrow "boom")).log = [] :=
  ⟨rfl, rfl⟩

/-- C3: the claim says every `get`/`set`/`remove` promise settles exactly
once, including when the success callback fires while the error
side-channel is set.  Evaluating `remove` at the failing input (the
callback fires with last-error `"gone"`): the promise receives zero
settlement calls — it never settles, because the callback throws before
reaching `resolve()`. -/
theorem c3_remove_lastError_zero_settlements :
    ((Storage.remove (StorageConfig.mk "theme" "light")
      (fun _ => some "dark") (.lastError "gone")).settleCalls).length = 0
    ∧ (Storage.remove (StorageConfig.mk "theme" "light")
      (fun _ => some "dark") (.lastError "gone")).outcome = .pending :=
  ⟨rfl, rfl⟩

/-- C4: on an error-free store, `get()` immediately after `set(v)`
resolves to `v`, for every value type, configuration, prior store
contents and value. -/
theorem c4_set_get_roundtrip {T : Type} (config : StorageConfig T)
    (st : Store T) (v : T) :
    (Storage.get config (Storage.set config v st .ok).store .ok).outcome
      = .resolved (some v) := by
  simp [Storage.get, Storage.set, OpResult.outcome, promiseOutcome]

/-- C5: `getWithDefault()` resolves to `config.defaultValue` when the key
is unset, and also when the underlying `get` fails; and for every
behavior of the underlying call it resolves (never rejects, never stays
pending). -/
theorem c5_getWithDefault_default_and_total {T : Type}
    (config : StorageConfig T) (st : Store T) (e : Err)
    (h : st config.key = none) :
    (Storage.getWithDefault config st .ok).outcome
      = .resolved config.defaultValue
    ∧ (Storage.getWithDefault config st (.syncThrow e)).outcome
      = .resolved config.defaultValue
    ∧ ∀ b : GetBehavior, ∃ v : T,
        (Storage.getWithDefault config st b).outcome = .resolved v := by
  refine ⟨?_, rfl, ?_⟩
  · simp [Storage.getWithDefault, Storage.get, OpResult.outcome,
      promiseOutcome, h]
  · intro b
    cases b with
    | ok =>
        cases hv : st config.key with
        | none =>
            exact ⟨config.defaultValue, by
              simp [Storage.getWithDefault, Storage.get, OpResult.outcome,
                promiseOutcome, hv]⟩
        | some v =>
            exact ⟨v, by
              simp [Storage.getWithDefault, Storage.get, OpResult.outcome,
                promiseOutcome, hv]⟩
    | syncThrow e => exact ⟨config.defaultValue, rfl⟩

/-- Witness for C5 at `key = "theme"`, `defaultValue = "light"`, a fresh
(empty) store and error `"boom"`. -/
theorem c5_getWithDefault_default_and_total_witness :
    (Storage.getWithDefault (StorageConfig.mk "theme" "light")
      (fun _ => none) .ok).outcome = .resolved "light"
    ∧ (Storage.getWithDefault (StorageConfig.mk "theme" "light")
      (fun _ => none) (.syncThrow "boom")).outcome = .resolved "light" :=
  ⟨(c5_getWithDefault_default_and_total (StorageConfig.mk "theme" "light")
      (fun _ => none) "boom" rfl).1,
   (c5_getWithDefault_default_and_total (StorageConfig.mk "theme" "light")
      (fun _ => none) "boom" rfl).2.1⟩

/-- C6: while the subscription is active, one change event invokes the
callback exactly once when it contains the configured key and zero times
otherwise; over any sequence of events the number of invocations equals
the number of events containing the key. -/
theorem c6_watch_exactly_once_per_matching_event {T : Type}
    (config : StorageConfig T) (ch : Changes T) (evts : List (Changes T)) :
    (deliverEvent (Storage.watch config .ok).registered config ch).length
      = (if (ch config.key).isSome then 1 else 0)
    ∧ (deliverEvents (Storage.watch config .ok).registered config evts).length
      = evts.countP (fun c => (c config.key).isSome) := by
  show (deliverEvent true config ch).length
      = (if (ch config.key).isSome then 1 else 0)
    ∧ (deliverEvents true config evts).length
      = evts.countP (fun c => (c config.key).isSome)
  constructor
  · cases h : ch config.key <;>
      simp [deliverEvent, watchListener, h]
  · induction evts with
    | nil => rfl
    | cons c cs ih =>
        cases h : c config.key <;>
          simp [deliverEvents, deliverEvent, watchListener, h,
            List.countP_cons] at ih ⊢ <;>
          simpa [deliverEvents] using ih

/-- C7: the unregister function from a successful `watch` never raises,
on its first call and on a second call, whatever the underlying
`removeListener` does; after the first (successful) call the listener is
off the list and no event delivers any further callback invocation; and
when subscription setup throws, `watch` raises nothing, logs the key, and
returns the no-op unregister, which itself never raises. -/
theorem c7_unregister_idempotent_and_total {T : Type}
    (config : StorageConfig T) (b1 b2 : RemoveBehavior) (e : Err)
    (ch : Changes T) :
    (runUnregister config (Storage.watch config .ok).unreg b1
      (Storage.watch config .ok).registered).raised = none
    ∧ (runUnregister config (Storage.watch config .ok).unreg b2
        (runUnregister config (Storage.watch config .ok).unreg b1
          (Storage.watch config .ok).registered).registered).raised = none
    ∧ deliverEvent
        (runUnregister config (Storage.watch config .ok).unreg .ok
          (Storage.watch config .ok).registered).registered config ch = []
    ∧ (Storage.watch config (.throws e)).raised = none
    ∧ (Storage.watch config (.throws e)).unreg = .noop
    ∧ (Storage.watch config (.throws e)).log
        = ["Storage watch error for " ++ config.key]
    ∧ (runUnregister config .noop b1 false).raised = none := by
  refine ⟨?_, ?_, rfl, rfl, rfl, rfl, rfl⟩
  · cases b1 <;> rfl
  · cases b1 <;> cases b2 <;> rfl

/-- C8: `reset` is literally `set(config.defaultValue)` — the two produce
identical observable results for every store and every behavior of the
underlying write — and on an error-free store `reset()` followed by
`get()` resolves to the default value. -/
theorem c8_reset_is_set_default {T : Type} (config : StorageConfig T)
    (st : Store T) (b : WriteBehavior) :
    Storage.reset config st b = Storage.set config config.defaultValue st b
    ∧ (Storage.get config (Storage.reset config st .ok).store .ok).outcome
        = .resolved (some config.defaultValue) := by
  refine ⟨rfl, ?_⟩
  simp [Storage.get, Storage.reset, Storage.set, OpResult.outcome,
    promiseOutcome]

/-- C9: on an error-free store, `remove()` deletes the key, so a
subsequent `get()` resolves to `undefined` (`none`). -/
theorem c9_remove_then_get_undefined {T : Type} (config : StorageConfig T)
    (st : Store T) :
    (Storage.remove config st .ok).store config.key = none
    ∧ (Storage.get config (Storage.remove config st .ok).store .ok).outcome
        = .resolved none := by
  constructor
  · simp [Storage.remove]
  · simp [Storage.get, Storage.remove, OpResult.outcome, promiseOutcome]

/-- C10: a change event that contains the configured key with an absent
`newValue` field (a removal) still invokes the callback, exactly once,
passing `undefined` (`none`). -/
theorem c10_watch_fires_undefined_on_removal {T : Type}
    (config : StorageConfig T) (ch : Changes T) (oldV : Option T)
    (h : ch config.key = some (StorageChange.mk none oldV)) :
    deliverEvent true config ch = [none] := by
  simp [deliverEvent, watchListener, h]

/-- Witness for C10: a store-wide event changing both the configured key
`"theme"` (removal: no `newValue`) and an unrelated key `"lang"`. -/
theorem c10_watch_fires_undefined_on_removal_witness :
    deliverEvent true (StorageConfig.mk "theme" "light")
      (fun k => if k = "theme" then some (StorageChange.mk none (some "dark"))
        else if k = "lang" then some (StorageChange.mk (some "en") none)
        else none) = [none] :=
  c10_watch_fires_undefined_on_removal (StorageConfig.mk "theme" "light") _
    (some "dark") rfl

end PromptCraft
